import Mathlib

/-!
Shallow embedding of the resilient element-interaction layer of the
Red_Packet_Collector repository (src/src/handlers/web_element_handler.py,
src/src/betbot.py, src/src/utils/money_handler.py, src/config.py).

The Selenium driver is modelled by environment records: each field holds the
outcome of one driver call site (a call that can raise is an `Except PyErr`
value; call sites inside a retry loop are indexed by the attempt number,
since the page may change between calls).  Python control flow translates
to explicit matches: a `try ... except` block becomes a match on an
`Except` value, an early `return` becomes the corresponding branch result.
-/

/-- A resolved DOM node reference (Selenium WebElement).  Opaque to the
code; only the driver-call outcomes recorded in the environments matter. -/
abbrev Handle := Nat

/-- Python exceptions distinguished by the code: `TimeoutException`,
`ElementClickInterceptedException`, and everything else (carrying `str(e)`,
which the click loop inspects for the substring "stale element reference"). -/
inductive PyErr where
  | timeout
  | intercepted
  | other (msg : String)
  deriving DecidableEq

/-- Whether an `Except` outcome is a success (the call did not raise). -/
def exceptOk {ε α : Type} (r : Except ε α) : Bool :=
  match r with
  | .ok _ => true
  | .error _ => false

/-- Python `needle in hay` on strings. -/
def pySubstr (needle hay : String) : Bool :=
  decide (List.IsInfix needle.data hay.data)

/-- The test `"stale element reference" in str(e)` at
web_element_handler.py line 193. -/
def staleMsg (msg : String) : Bool :=
  pySubstr "stale element reference" msg

/-- Python truthiness filter on an optional string attribute value:
`if s:` is false for `None` and for the empty string. -/
def pyTruthy (s : Option String) : Option String :=
  match s with
  | some s => if s = "" then none else some s
  | none => none

/-- Helper for `pySplit`: accumulate the current token (reversed) while
scanning the characters. -/
def pySplitAux : List Char → List Char → List String
  | [], acc => if acc = [] then [] else [String.mk acc.reverse]
  | c :: cs, acc =>
    if c.isWhitespace then
      if acc = [] then pySplitAux cs []
      else String.mk acc.reverse :: pySplitAux cs []
    else pySplitAux cs (c :: acc)

/-- Python `str.split()` with no argument: split on whitespace runs,
discarding empty tokens. -/
def pySplit (s : String) : List String :=
  pySplitAux s.data []

/-- TIMEOUTS["page_load"] from config.py. -/
def TIMEOUTS_page_load : Nat := 30

/-- TIMEOUTS["element_wait"] from config.py. -/
def TIMEOUTS_element_wait : Nat := 10

/-- TIMEOUTS["popup_check"] from config.py. -/
def TIMEOUTS_popup_check : Nat := 40

/-- TIMEOUTS["retry_interval"] from config.py. -/
def TIMEOUTS_retry_interval : Nat := 2

/-!  ## element_exists (web_element_handler.py lines 380-395)  -/

/-- Outcome of probing `element.is_enabled()` on a handle: the cheap
read-only liveness probe.  An `.error` models the probe raising (stale
node, dead session, ...). -/
structure LiveEnv where
  probeEnabled : Handle → Except PyErr Bool

/-- `element_exists`: `None` is reported as not existing; otherwise the
`is_enabled()` probe is attempted and any exception is interpreted as the
element no longer existing. -/
def element_exists (env : LiveEnv) (element : Option Handle) : Bool :=
  match element with
  | none => false
  | some h =>
    match env.probeEnabled h with
    | .ok _ => true
    | .error _ => false

/-!  ## The three conditional waits (web_element_handler.py lines 17-75)  -/

/-- `timeout = timeout or self.default_timeout`: `None` and `0` both fall
back to TIMEOUTS["element_wait"]. -/
def effectiveTimeout (timeout : Option Nat) : Nat :=
  match timeout with
  | none => TIMEOUTS_element_wait
  | some n => if n = 0 then TIMEOUTS_element_wait else n

/-- Outcome of `WebDriverWait(driver, t).until(condition)` as a function of
the effective timeout `t`: the element that satisfied the condition, or
`.timeout` when no element reached it within `t`, or another driver error. -/
structure WaitEnv where
  untilResult : Nat → Except PyErr Handle

/-- `wait_for_element_present`: catches only `TimeoutException`, logging a
warning that names the selector and returning `None`; any other driver
error propagates to the caller.  The second component is the list of log
messages emitted. -/
def wait_for_element_present (env : WaitEnv) (selector : String)
    (timeout : Option Nat) : Except PyErr (Option Handle) × List String :=
  match env.untilResult (effectiveTimeout timeout) with
  | .ok h => (.ok (some h), [])
  | .error .timeout => (.ok none, ["Element not found (present): " ++ selector])
  | .error e => (.error e, [])

/-- `wait_for_element_visible`: same shape as the present-mode wait. -/
def wait_for_element_visible (env : WaitEnv) (selector : String)
    (timeout : Option Nat) : Except PyErr (Option Handle) × List String :=
  match env.untilResult (effectiveTimeout timeout) with
  | .ok h => (.ok (some h), [])
  | .error .timeout => (.ok none, ["Element not found (visible): " ++ selector])
  | .error e => (.error e, [])

/-- `wait_for_element_clickable`: same shape as the present-mode wait. -/
def wait_for_element_clickable (env : WaitEnv) (selector : String)
    (timeout : Option Nat) : Except PyErr (Option Handle) × List String :=
  match env.untilResult (effectiveTimeout timeout) with
  | .ok h => (.ok (some h), [])
  | .error .timeout => (.ok none, ["Element not found (clickable): " ++ selector])
  | .error e => (.error e, [])

/-!  ## ensure_valid_element (web_element_handler.py lines 479-512)  -/

/-- Environment for `ensure_valid_element`: the liveness probe, the raw
`until` outcome of each of the three recovery strategies (present, visible,
clickable), and the outcome of the final `find_similar_element` call
(which never raises: all its paths are caught internally). -/
structure EnsureEnv where
  liveEnv : LiveEnv
  presentUntil : Except PyErr Handle
  visibleUntil : Except PyErr Handle
  clickableUntil : Except PyErr Handle
  similarResult : Option Handle

/-- One iteration of the strategy loop in `ensure_valid_element`:
`new_element = strategy(by, selector, timeout)` followed by
`if new_element and self.element_exists(new_element): return new_element`.
A `.timeout` makes the wait return `None` (falsy, so the loop continues);
any other raise is swallowed by the `except Exception: continue`; a live
result is returned. -/
def strategyStep (live : LiveEnv) (r : Except PyErr Handle) : Option Handle :=
  match r with
  | .ok h => if element_exists live (some h) then some h else none
  | .error _ => none

/-- `ensure_valid_element`: a live handle is returned unchanged; otherwise
the three waits are tried in order (present, visible, clickable), returning
the first live result, and finally `find_similar_element` is consulted. -/
def ensure_valid_element (env : EnsureEnv) (element : Option Handle) :
    Option Handle :=
  if element_exists env.liveEnv element then element
  else
    match strategyStep env.liveEnv env.presentUntil with
    | some h => some h
    | none =>
      match strategyStep env.liveEnv env.visibleUntil with
      | some h => some h
      | none =>
        match strategyStep env.liveEnv env.clickableUntil with
        | some h => some h
        | none => env.similarResult

/-!  ## find_similar_element (web_element_handler.py lines 330-378)  -/

/-- Environment for `find_similar_element`: attribute reads on the original
element (each can raise, e.g. when the original is stale), the driver
queries of each strategy, and the displayed/enabled/type/name state of the
candidate handles.  `findById` models `driver.find_element(By.ID, ...)`,
which raises when no element matches; the `find_elements` queries return a
(possibly empty) list without raising. -/
structure SimilarEnv where
  origId : Except PyErr (Option String)
  findById : String → Except PyErr Handle
  origClass : Except PyErr (Option String)
  findByClass : String → List Handle
  origText : Except PyErr String
  findByText : String → List Handle
  origTag : Except PyErr String
  findByTag : String → List Handle
  displayed : Handle → Bool
  enabled : Handle → Bool
  attrType : Handle → Option String
  attrName : Handle → Option String
  origTypeAttr : Option String
  origNameAttr : Option String

/-- `element.is_displayed() and element.is_enabled()` on a candidate. -/
def okCand (env : SimilarEnv) (h : Handle) : Bool :=
  env.displayed h && env.enabled h

/-- First displayed-and-enabled element of a `find_elements` result. -/
def firstOk (env : SimilarEnv) (l : List Handle) : Option Handle :=
  l.find? (okCand env)

/-- Strategy 2 of `find_similar_element`: for each class token in order,
scan the `By.CLASS_NAME` matches for the first displayed-and-enabled one. -/
def classStrategy (env : SimilarEnv) : List String → Option Handle
  | [] => none
  | c :: rest =>
    match firstOk env (env.findByClass c) with
    | some h => some h
    | none => classStrategy env rest

/-- Strategy 2 of `find_similar_element` given the class attribute value:
nothing when the attribute is falsy, otherwise the class-token scan. -/
def strategy2 (env : SimilarEnv) (clsOpt : Option String) : Option Handle :=
  match pyTruthy clsOpt with
  | some cls => classStrategy env (pySplit cls)
  | none => none

/-- Strategy 3 of `find_similar_element` given the visible text: a
text-contains query, scanned for the first displayed-and-enabled match. -/
def strategy3 (env : SimilarEnv) (txt : String) : Option Handle :=
  if txt = "" then none else firstOk env (env.findByText txt)

/-- Strategy 4 of `find_similar_element` given the tag name: the
`By.TAG_NAME` matches, scanned for the first whose `type` and `name`
attributes equal the original's and which is displayed and enabled. -/
def strategy4 (env : SimilarEnv) (tag : String) : Option Handle :=
  if tag = "" then none
  else
    (env.findByTag tag).find? fun h =>
      decide (env.attrType h = env.origTypeAttr) &&
      decide (env.attrName h = env.origNameAttr) && okCand env h

/-- Strategies 2-4 of `find_similar_element` (the code after the id-based
strategy): class tokens, then text-contains, then tag plus matching `type`
and `name` attributes, with the attribute reads interleaved.  A raising
attribute read falls into the function's `except` clause, which returns
`None`. -/
def find_similar_rest (env : SimilarEnv) : Option Handle :=
  match env.origClass with
  | .error _ => none
  | .ok clsOpt =>
    match strategy2 env clsOpt with
    | some h => some h
    | none =>
      match env.origText with
      | .error _ => none
      | .ok txt =>
        match strategy3 env txt with
        | some h => some h
        | none =>
          match env.origTag with
          | .error _ => none
          | .ok tag => strategy4 env tag

/-- Modelled from the spec (the reading claim C8 asserts): strategies 2-4
as a pure cascade over already-read attribute values. -/
def restClaimed (env : SimilarEnv) (clsOpt : Option String)
    (txt tag : String) : Option Handle :=
  match strategy2 env clsOpt with
  | some h => some h
  | none =>
    match strategy3 env txt with
    | some h => some h
    | none => strategy4 env tag

/-- Modelled from the spec (the reading claim C8 asserts): try the four
re-identification strategies in order - id attribute, class tokens, text
contains, tag plus type/name attributes - and return the first candidate
that is displayed and enabled, or none if no strategy yields such a
candidate.  A failed id lookup merely yields no candidate from strategy 1
here, rather than aborting the whole search. -/
def find_similar_claimed (env : SimilarEnv) (idOpt clsOpt : Option String)
    (txt tag : String) : Option Handle :=
  match
    (match pyTruthy idOpt with
     | some i =>
       match env.findById i with
       | .ok h => if okCand env h then some h else none
       | .error _ => none
     | none => none) with
  | some h => some h
  | none => restClaimed env clsOpt txt tag

/-- `find_similar_element`: strategy 1 looks the original's id attribute up
with `driver.find_element(By.ID, id)`.  When that call raises (no element
with that id), the exception reaches the function's `except` clause, which
logs and returns `None` - the remaining strategies are not tried.  When it
returns a node that is not displayed-and-enabled, the code falls through to
the remaining strategies. -/
def find_similar_element (env : SimilarEnv) : Option Handle :=
  match env.origId with
  | .error _ => none
  | .ok idOpt =>
    match pyTruthy idOpt with
    | some i =>
      match env.findById i with
      | .error _ => none
      | .ok h =>
        if okCand env h then some h
        else find_similar_rest env
    | none => find_similar_rest env

/-!  ## click_element (web_element_handler.py lines 96-204)  -/

/-- Outcome of one iteration of the 3-attempt click loop's `try` block:
the click variant (native with pointer-events neutralization, or scripted
when `use_js` is set or on a later attempt) succeeded, or it raised
`ElementClickInterceptedException` (in which case the mouse-event-dispatch
fallback runs, with its own outcome), or it raised some other exception
whose `str(e)` is recorded. -/
inductive AttemptOutcome where
  | success
  | intercepted (fallback : Except PyErr Unit)
  | failed (msg : String)

/-- Environment for `click_element`.  The two `element_exists` call sites
(entry probe at line 110, post-stale re-probe at line 195) are separate
fields because the DOM may change between them; the post-stale probe is
indexed by the attempt during which the stale error was raised. -/
structure ClickEnv where
  entryExists : Bool
  getId : Except PyErr (Option String)
  getClass : Except PyErr (Option String)
  ensureValidRes : Option Handle
  findSimilarRes : Option Handle
  attemptOutcome : Nat → AttemptOutcome
  postStaleExists : Nat → Bool

/-- The stale-recovery block of `click_element` (lines 112-140), entered
when the entry probe fails.  `new_element` is initialized to the original
element, so when neither an id nor a class attribute is truthy the original
(stale) reference itself survives the `if not new_element` checks and the
attempts proceed against it.  A raising attribute read hits the inner
`except`, returning `None` (click returns False).  A truthy class whose
`split()` has no tokens makes `class_name.split()[0]` raise `IndexError`,
with the same effect. -/
def click_recover (env : ClickEnv) (element : Handle) : Option Handle :=
  match env.getId with
  | .error _ => none
  | .ok idOpt =>
    match pyTruthy idOpt with
    | some _ =>
      match env.ensureValidRes with
      | some h => some h
      | none => env.findSimilarRes
    | none =>
      match env.getClass with
      | .error _ => none
      | .ok clsOpt =>
        match pyTruthy clsOpt with
        | some cls =>
          match (pySplit cls).head? with
          | none => none
          | some _ =>
            match env.ensureValidRes with
            | some h => some h
            | none => env.findSimilarRes
        | none => some element

/-- The `for attempt in range(3)` loop of `click_element`, returning the
result together with the number of attempts that were executed.  A success
(or a successful interception fallback) returns True.  An interception
whose fallback also raises sleeps and continues.  Any other exception
breaks out of the loop (returning False) unless its message mentions a
stale element reference and the re-probe still finds the element live, in
which case the loop continues. -/
def click_loop (env : ClickEnv) : Nat → Nat → Bool × Nat
  | 0, i => (false, i)
  | fuel + 1, i =>
    match env.attemptOutcome i with
    | .success => (true, i + 1)
    | .intercepted fb =>
      match fb with
      | .ok _ => (true, i + 1)
      | .error _ => click_loop env fuel (i + 1)
    | .failed msg =>
      if staleMsg msg then
        if env.postStaleExists i then click_loop env fuel (i + 1)
        else (false, i + 1)
      else (false, i + 1)

/-- `click_element`: entry staleness probe, recovery when stale, then the
3-attempt click loop.  The scroll-into-view step (lines 142-150) is inside
its own `try` with a bare `except: pass`, so it cannot affect the result
and is not represented.  The result records the boolean outcome and how
many attempts of the loop were executed. -/
def click_element (env : ClickEnv) (element : Handle) : Bool × Nat :=
  if env.entryExists then click_loop env 3 0
  else
    match click_recover env element with
    | none => (false, 0)
    | some _ => click_loop env 3 0

/-!  ## fill_field (web_element_handler.py lines 224-309)  -/

/-- Environment for `fill_field`.  Pre-loop call sites: the visible-mode
wait, the liveness probe, the recovery strategies (feeding an `EnsureEnv`),
the `is_enabled()` check at line 244 and the attribute-removal script at
lines 247-250.  Loop call sites, indexed by the handle and the attempt
number: `send_keys(text)`, the two value reads via
`get_attribute("value")` (which returns an optional string), and the two
scripts between them.  The focus/scroll step (lines 255-260) and the clear
step (lines 262-274) swallow every exception they can raise and produce no
value the rest of the function reads, so they have no representation. -/
structure FillEnv where
  liveEnv : LiveEnv
  visibleUntil : Except PyErr Handle
  recPresent : Except PyErr Handle
  recVisible : Except PyErr Handle
  recClickable : Except PyErr Handle
  recSimilar : Option Handle
  isEnabledCheck : Handle → Except PyErr Bool
  removeAttrs : Handle → Except PyErr Unit
  sendKeys : Handle → Nat → Except PyErr Unit
  readValue1 : Handle → Nat → Except PyErr (Option String)
  setValue : Handle → Nat → Except PyErr Unit
  setValueEvents : Handle → Nat → Except PyErr Unit
  readValue2 : Handle → Nat → Except PyErr (Option String)

/-- The recovery environment `fill_field` hands to `ensure_valid_element`. -/
def fillEnsureEnv (env : FillEnv) : EnsureEnv :=
  { liveEnv := env.liveEnv
    presentUntil := env.recPresent
    visibleUntil := env.recVisible
    clickableUntil := env.recClickable
    similarResult := env.recSimilar }

/-- One iteration of the fill loop's `try` block (lines 278-298).  The
result is `some v` when the iteration returned True, where `v` is the
value read back by `get_attribute("value")` at the check that succeeded;
`none` means the iteration fell through (verification failed twice) or
raised (logged, then `attempts -= 1`). -/
def fill_attempt (env : FillEnv) (h : Handle) (text : String) (i : Nat) :
    Option (Option String) :=
  match env.sendKeys h i with
  | .error _ => none
  | .ok _ =>
    match env.readValue1 h i with
    | .error _ => none
    | .ok v1 =>
      if v1 = some text then some v1
      else
        match env.setValue h i with
        | .error _ => none
        | .ok _ =>
          match env.setValueEvents h i with
          | .error _ => none
          | .ok _ =>
            match env.readValue2 h i with
            | .error _ => none
            | .ok v2 => if v2 = some text then some v2 else none

/-- The `attempts = 3; while attempts > 0` loop of `fill_field`, with the
attempt index counting up from 0. -/
def fill_loop (env : FillEnv) (h : Handle) (text : String) :
    Nat → Nat → Option (Option String)
  | 0, _ => none
  | fuel + 1, i =>
    match fill_attempt env h text i with
    | some v => some v
    | none => fill_loop env h text fuel (i + 1)

/-- The part of `fill_field`'s body after the target element has been
resolved (lines 244-305): the enabled check with its scripted
attribute-removal fallback (whose failure is `return False`, line 253),
then the verification loop.  The focus/scroll and clear steps in between
swallow all their exceptions and yield nothing the rest reads. -/
def fill_field_postResolve (env : FillEnv) (h : Handle) (text : String) :
    Except PyErr (Option (Option String)) :=
  match env.isEnabledCheck h with
  | .error e => .error e
  | .ok enabled =>
    match
      (if enabled then Except.ok ()
       else
         match env.removeAttrs h with
         | .ok _ => .ok ()
         | .error e => .error e) with
    | .error _ => .ok none
    | .ok _ =>
      match fill_loop env h text 3 0 with
      | some v => .ok (some v)
      | none => .ok none

/-- The `if not element: return False` guard after recovery (line 240)
followed by the rest of the body on the resolved handle. -/
def fill_field_dispatch (env : FillEnv) (text : String) :
    Option Handle → Except PyErr (Option (Option String))
  | none => .ok none
  | some h => fill_field_postResolve env h text

/-- The body of `fill_field` before its outer `except` clause.
`.error e` models an exception reaching the outer handler; `.ok none`
models `return False`; `.ok (some v)` models `return True` with `v` the
value read back at the successful verification.  The `clear` parameter is
carried for fidelity: the clear block swallows all its exceptions and
returns nothing, so it does not appear as a step. -/
def fill_field_result (env : FillEnv) (selector text : String)
    (clear : Bool) : Except PyErr (Option (Option String)) :=
  match (wait_for_element_visible ⟨fun _ => env.visibleUntil⟩ selector none).1 with
  | .error e => .error e
  | .ok e0 =>
    let elem? : Option Handle :=
      match e0 with
      | some h =>
        if element_exists env.liveEnv (some h) then some h
        else ensure_valid_element (fillEnsureEnv env) (some h)
      | none => ensure_valid_element (fillEnsureEnv env) none
    let _ := clear
    fill_field_dispatch env text elem?

/-- `fill_field`: the outer `try ... except Exception: return False`
wrapper around the body - the function never raises, every failure is the
boolean `False`. -/
def fill_field (env : FillEnv) (selector text : String) (clear : Bool) :
    Bool :=
  match fill_field_result env selector text clear with
  | .ok (some _) => true
  | .ok none => false
  | .error _ => false

/-!  ## fill_masked_field (web_element_handler.py lines 514-578)  -/

/-- Environment for `fill_masked_field`.  `suppressListeners` is the
script installing the addEventListener override; `sendChars` collapses the
per-character `send_keys` loop (any raise aborts to the outer handler);
`readValue` is the single `get_attribute("value")` verification read;
`setValue` and `dispatchEvents` are the two fallback scripts.
`readBackAfterAssign` records what a re-read of the value after the
fallback would return - the code never performs such a read. -/
structure MaskEnv where
  liveEnv : LiveEnv
  visibleUntil : Except PyErr Handle
  suppressListeners : Handle → Except PyErr Unit
  sendChars : Handle → Except PyErr Unit
  readValue : Handle → Except PyErr (Option String)
  setValue : Handle → Except PyErr Unit
  dispatchEvents : Handle → Except PyErr Unit
  readBackAfterAssign : Option String

/-- `if mask and any(c in mask for c in "0123456789")`. -/
def maskIsNumeric (mask : Option String) : Bool :=
  match mask with
  | none => false
  | some m => m ≠ "" && m.data.any Char.isDigit

/-- The effective text typed by `fill_masked_field`: under a numeric mask
the non-digit characters are stripped first (line 551). -/
def maskText (mask : Option String) (text : String) : String :=
  if maskIsNumeric mask then String.mk (text.data.filter Char.isDigit)
  else text

/-- The substring-containment verification of `fill_masked_field`:
`if current_value and (text in current_value or current_value in text)`. -/
def maskVerified (text : String) (v : Option String) : Bool :=
  match v with
  | none => false
  | some s => s ≠ "" && (pySubstr text s || pySubstr s text)

/-- The body of `fill_masked_field` before its outer `except` clause.
After listener suppression and per-character typing, the value is verified
by substring containment; when that fails, the scripted value assignment
and the `change`/`input`/`blur` dispatch run and the function returns True
with no further read of the field - `readBackAfterAssign` is never
consulted.  The clear block (lines 544-548) swallows its exceptions and is
not represented. -/
def fill_masked_field_result (env : MaskEnv) (selector text : String)
    (mask : Option String) : Except PyErr Bool :=
  match (wait_for_element_visible ⟨fun _ => env.visibleUntil⟩ selector none).1 with
  | .error e => .error e
  | .ok e0 =>
    match e0 with
    | none => .ok false
    | some h =>
      if ¬ element_exists env.liveEnv (some h) then .ok false
      else
        match env.suppressListeners h with
        | .error e => .error e
        | .ok _ =>
          let text' := maskText mask text
          match env.sendChars h with
          | .error e => .error e
          | .ok _ =>
            match env.readValue h with
            | .error e => .error e
            | .ok v =>
              if maskVerified text' v then .ok true
              else
                match env.setValue h with
                | .error e => .error e
                | .ok _ =>
                  match env.dispatchEvents h with
                  | .error e => .error e
                  | .ok _ => .ok true

/-- `fill_masked_field`: outer `except Exception: return False` wrapper. -/
def fill_masked_field (env : MaskEnv) (selector text : String)
    (mask : Option String) : Bool :=
  match fill_masked_field_result env selector text mask with
  | .ok b => b
  | .error _ => false

/-!  ## handle_popups (betbot.py lines 142-196)  -/

/-- Environment for `handle_popups`, with one scan pass of the inner
`for selector in POPUP_SELECTORS` loop collapsed into per-pass outcomes
(every exception inside the pass is caught per selector, so a pass always
completes).  `timeAt k` is the value of `time.time()` at the k-th
evaluation of the `while` condition; `found k` is whether any popup
selector resolved during pass k; `closedInPass k` is how many popups were
closed during pass k; `stillVisible k` is the settling re-check. -/
structure PopupEnv where
  timeAt : Nat → Int
  found : Nat → Bool
  closedInPass : Nat → Nat
  stillVisible : Nat → Bool

/-- The `while time.time() - start_time < TIMEOUTS["popup_check"] and
max_attempts > 0` loop.  `fuel` is a modelling artifact bounding the
recursion depth: `none` means the fuel ran out while the condition still
held (shown unreachable for sufficient fuel under a monotone clock).
When no popup is found in a pass, `max_attempts` is decremented; when at
least one popup has been closed so far and no registered popup remains
visible, the loop breaks early. -/
def handle_popups_loop (env : PopupEnv) (start : Int) :
    Nat → Nat → Nat → Nat → Option Nat
  | 0, k, ma, pc =>
    if env.timeAt k - start < (TIMEOUTS_popup_check : Int) ∧ 0 < ma then none
    else some pc
  | fuel + 1, k, ma, pc =>
    if env.timeAt k - start < (TIMEOUTS_popup_check : Int) ∧ 0 < ma then
      if 0 < pc + (if env.found k then env.closedInPass k else 0) ∧
          env.stillVisible k = false then
        some (pc + (if env.found k then env.closedInPass k else 0))
      else
        handle_popups_loop env start fuel (k + 1)
          (if env.found k then ma else ma - 1)
          (pc + (if env.found k then env.closedInPass k else 0))
    else some pc

/-- `handle_popups`: `max_attempts = 3`, `popups_closed = 0`, then the
time-boxed scan loop; the result is the total number of popups closed. -/
def handle_popups (env : PopupEnv) (start : Int) : Option Nat :=
  handle_popups_loop env start (TIMEOUTS_popup_check + 1) 0 3 0

/-!  ## MoneyHandler (money_handler.py)  -/

/-- Environment abstracting the Python float library: `pyFloat` models
`float(s)` (`none` = ValueError), `pyFormat2` models the f-string
`{x:.2f}` formatting. -/
structure MoneyEnv where
  pyFloat : String → Option ℚ
  pyFormat2 : ℚ → String

/-- `MoneyHandler.str_to_float`: strip "R$", turn the decimal comma into a
dot, trim, parse; 0.0 when parsing fails. -/
def str_to_float (env : MoneyEnv) (value_str : String) : ℚ :=
  match env.pyFloat (((value_str.replace "R$" "").replace "," ".").trim) with
  | some x => x
  | none => 0

/-- `MoneyHandler.float_to_str`. -/
def float_to_str (env : MoneyEnv) (value_float : ℚ) : String :=
  ("R$ " ++ env.pyFormat2 value_float).replace "." ","

/-- `MoneyHandler.calcular_diferenca`: parse both values, subtract, and
format the signed difference, or report "No change" when it is neither
positive nor negative. -/
def calcular_diferenca (env : MoneyEnv) (old_value new_value : String) :
    String :=
  let v_old := str_to_float env old_value
  let v_new := str_to_float env new_value
  let difference := v_new - v_old
  if 0 < difference then
    ("↑ R$ " ++ env.pyFormat2 difference).replace "." ","
  else if difference < 0 then
    ("↓ R$ " ++ env.pyFormat2 |difference|).replace "." ","
  else "No change"

/-!  ## Derived predicates and concrete environments  -/

/-- Whether attempt `j` of the click loop falls through to the next
attempt rather than terminating it: an interception whose event-dispatch
fallback also raised, or a stale-element error whose re-probe still found
the element live. -/
def attemptContinues (env : ClickEnv) (j : Nat) : Bool :=
  match env.attemptOutcome j with
  | .success => false
  | .intercepted fb => !(exceptOk fb)
  | .failed m => staleMsg m && env.postStaleExists j

/-- Concrete environment for the claim C7 witness: every probe succeeds,
every recovery strategy would fail. -/
def ensureLiveWitnessEnv : EnsureEnv :=
  { liveEnv := ⟨fun _ => .ok true⟩
    presentUntil := .error .timeout
    visibleUntil := .error .timeout
    clickableUntil := .error .timeout
    similarResult := none }

/-- Concrete environment for the claim C1 witness: the field resolves
immediately and the first keystroke pass verifies. -/
def fillWitnessEnv : FillEnv :=
  { liveEnv := ⟨fun _ => .ok true⟩
    visibleUntil := .ok 1
    recPresent := .error .timeout
    recVisible := .error .timeout
    recClickable := .error .timeout
    recSimilar := none
    isEnabledCheck := fun _ => .ok true
    removeAttrs := fun _ => .ok ()
    sendKeys := fun _ _ => .ok ()
    readValue1 := fun _ _ => .ok (some "abc")
    setValue := fun _ _ => .ok ()
    setValueEvents := fun _ _ => .ok ()
    readValue2 := fun _ _ => .ok (some "abc") }

/-- Concrete environment for claim C5: the visible-mode wait times out,
the liveness probe always raises a staleness error and every recovery
strategy fails, so resolution of the field ultimately fails even after
recovery. -/
def fillFailEnv : FillEnv :=
  { liveEnv := ⟨fun _ => .error (.other "stale element reference")⟩
    visibleUntil := .error .timeout
    recPresent := .error .timeout
    recVisible := .error .timeout
    recClickable := .error .timeout
    recSimilar := none
    isEnabledCheck := fun _ => .ok true
    removeAttrs := fun _ => .ok ()
    sendKeys := fun _ _ => .ok ()
    readValue1 := fun _ _ => .ok none
    setValue := fun _ _ => .ok ()
    setValueEvents := fun _ _ => .ok ()
    readValue2 := fun _ _ => .ok none }

/-- Concrete environment for the claim C3 witness: live on entry, attempt
0 is intercepted and its fallback dispatch also fails, attempt 1 raises a
stale-element error, and every re-probe finds the element gone. -/
def clickStaleEnv : ClickEnv :=
  { entryExists := true
    getId := .ok none
    getClass := .ok none
    ensureValidRes := none
    findSimilarRes := none
    attemptOutcome := fun j =>
      if j = 0 then .intercepted (.error (.other "overlay"))
      else .failed "stale element reference: element is not attached"
    postStaleExists := fun _ => false }

/-- Concrete environment for the claim C6 witness: a masked field whose
keystroke pass reads back "xx", which neither contains nor is contained in
the requested text "12", forcing the scripted fallback. -/
def maskWitnessEnv : MaskEnv :=
  { liveEnv := ⟨fun _ => .ok true⟩
    visibleUntil := .ok 3
    suppressListeners := fun _ => .ok ()
    sendChars := fun _ => .ok ()
    readValue := fun _ => .ok (some "xx")
    setValue := fun _ => .ok ()
    dispatchEvents := fun _ => .ok ()
    readBackAfterAssign := none }

/-- Concrete environment for the claim C2 witness: a clock ticking one
second per pass, with a popup found on every pass that never gets closed,
so only the wall-clock budget can end the loop. -/
def popupWitnessEnv : PopupEnv :=
  { timeAt := fun k => (k : Int)
    found := fun _ => true
    closedInPass := fun _ => 0
    stillVisible := fun _ => true }

/-- Concrete environment for the claim C8 counterexample: the original has
id "btn-id" but no element with that id exists any more, while the class
token "btn" matches the displayed-and-enabled candidate 5. -/
def similarCexEnv : SimilarEnv :=
  { origId := .ok (some "btn-id")
    findById := fun _ => .error (.other "no such element")
    origClass := .ok (some "btn")
    findByClass := fun _ => [5]
    origText := .ok ""
    findByText := fun _ => []
    origTag := .ok "button"
    findByTag := fun _ => []
    displayed := fun _ => true
    enabled := fun _ => true
    attrType := fun _ => none
    attrName := fun _ => none
    origTypeAttr := none
    origNameAttr := none }

/-- Concrete environment for the claim C8 witness: attribute reads and the
id lookup all succeed. -/
def similarLiveEnv : SimilarEnv :=
  { origId := .ok (some "okid")
    findById := fun _ => .ok 9
    origClass := .ok none
    findByClass := fun _ => []
    origText := .ok ""
    findByText := fun _ => []
    origTag := .ok ""
    findByTag := fun _ => []
    displayed := fun _ => true
    enabled := fun _ => true
    attrType := fun _ => none
    attrName := fun _ => none
    origTypeAttr := none
    origNameAttr := none }

/-!  # Claims  -/

/-- Claim C9: the liveness probe `element_exists` is total and never
propagates an error: it returns a boolean in every case, `true` exactly
when the handle is present and the `is_enabled()` probe succeeds - so a
`None` handle yields `false` and any error raised while probing the
enabled state yields `false` (stale) rather than propagating. -/
theorem element_exists_total_spec (env : LiveEnv) (element : Option Handle) :
    element_exists env element = true ↔
      ∃ h, element = some h ∧ exceptOk (env.probeEnabled h) = true := by
  cases element with
  | none => simp [element_exists]
  | some h =>
    cases hp : env.probeEnabled h <;>
      simp [element_exists, hp, exceptOk]

/-- Claim C10: for every string `v` (including strings that do not parse
as monetary values, which parse to 0), `calcular_diferenca v v` returns
"No change": both arguments go through the same deterministic parse, so
the computed difference is zero. -/
theorem calcular_diferenca_self_no_change (env : MoneyEnv) (v : String) :
    calcular_diferenca env v v = "No change" := by
  unfold calcular_diferenca
  simp

/-- Claim C4: for every locator, readiness mode (present, visible,
clickable) and timeout, when no matching element reaches the requested
mode within the timeout (the driver's conditional wait raises
`TimeoutException`), the resolver returns `None`, logs exactly one warning
naming the locator, and no exception escapes to the caller (the result is
`.ok`, not `.error`). -/
theorem wait_timeout_returns_none (envP envV envC : WaitEnv)
    (selector : String) (timeout : Option Nat)
    (hP : envP.untilResult (effectiveTimeout timeout) = .error .timeout)
    (hV : envV.untilResult (effectiveTimeout timeout) = .error .timeout)
    (hC : envC.untilResult (effectiveTimeout timeout) = .error .timeout) :
    wait_for_element_present envP selector timeout =
      (.ok none, ["Element not found (present): " ++ selector]) ∧
    wait_for_element_visible envV selector timeout =
      (.ok none, ["Element not found (visible): " ++ selector]) ∧
    wait_for_element_clickable envC selector timeout =
      (.ok none, ["Element not found (clickable): " ++ selector]) := by
  refine ⟨?_, ?_, ?_⟩ <;>
    simp [wait_for_element_present, wait_for_element_visible,
      wait_for_element_clickable, hP, hV, hC]

/-- Witness for claim C4: a concrete 10-second wait whose condition never
holds returns `None` with the warning, in all three modes. -/
theorem wait_timeout_returns_none_witness :
    wait_for_element_present ⟨fun _ => .error .timeout⟩ "sel" (some 10) =
      (.ok none, ["Element not found (present): " ++ "sel"]) ∧
    wait_for_element_visible ⟨fun _ => .error .timeout⟩ "sel" (some 10) =
      (.ok none, ["Element not found (visible): " ++ "sel"]) ∧
    wait_for_element_clickable ⟨fun _ => .error .timeout⟩ "sel" (some 10) =
      (.ok none, ["Element not found (clickable): " ++ "sel"]) :=
  wait_timeout_returns_none ⟨fun _ => .error .timeout⟩
    ⟨fun _ => .error .timeout⟩ ⟨fun _ => .error .timeout⟩ "sel" (some 10)
    rfl rfl rfl

/-- Claim C7: `ensure_valid_element` applied to a handle whose liveness
probe succeeds returns that same handle unchanged - no recovery strategy
outcome influences the result (the statement holds for every value of the
recovery fields of the environment) - and applying it twice returns the
same handle. -/
theorem ensure_valid_element_idempotent_on_live (env : EnsureEnv)
    (h : Handle) (hlive : exceptOk (env.liveEnv.probeEnabled h) = true) :
    ensure_valid_element env (some h) = some h ∧
    ensure_valid_element env (ensure_valid_element env (some h)) = some h := by
  have hx : element_exists env.liveEnv (some h) = true := by
    cases hp : env.liveEnv.probeEnabled h <;>
      simp [element_exists, hp, exceptOk, hp] at hlive ⊢
  constructor <;> simp [ensure_valid_element, hx]

/-- Witness for claim C7 at handle 2. -/
theorem ensure_valid_element_idempotent_on_live_witness :
    ensure_valid_element ensureLiveWitnessEnv (some 2) = some 2 ∧
    ensure_valid_element ensureLiveWitnessEnv
      (ensure_valid_element ensureLiveWitnessEnv (some 2)) = some 2 :=
  ensure_valid_element_idempotent_on_live ensureLiveWitnessEnv 2 rfl

/-- Claim C6: in a masked-field fill where the keystroke entry does not
verify by substring containment, once the scripted value assignment and
the `change`/`input`/`blur` dispatch execute without raising,
`fill_masked_field` returns true - and it does so for every possible
post-assignment field value (`readBackAfterAssign` ranges over all
values), since the code performs no re-verification after the fallback. -/
theorem fill_masked_field_fallback_assumed_success (env : MaskEnv)
    (selector text : String) (mask : Option String) (h : Handle)
    (v : Option String)
    (hw : env.visibleUntil = .ok h)
    (hlive : exceptOk (env.liveEnv.probeEnabled h) = true)
    (hsup : env.suppressListeners h = .ok ())
    (hchars : env.sendChars h = .ok ())
    (hread : env.readValue h = .ok v)
    (hver : maskVerified (maskText mask text) v = false)
    (hset : env.setValue h = .ok ())
    (hdisp : env.dispatchEvents h = .ok ()) :
    fill_masked_field env selector text mask = true ∧
    ∀ r, fill_masked_field { env with readBackAfterAssign := r }
      selector text mask = true := by
  have hx : element_exists env.liveEnv (some h) = true := by
    cases hp : env.liveEnv.probeEnabled h <;>
      simp [element_exists, hp, exceptOk, hp] at hlive ⊢
  have main : ∀ r : Option String,
      fill_masked_field { env with readBackAfterAssign := r }
        selector text mask = true := by
    intro r
    unfold fill_masked_field fill_masked_field_result
      wait_for_element_visible
    simp [hw, hx, hsup, hchars, hread, hver, hset, hdisp]
  exact ⟨main env.readBackAfterAssign, main⟩

/-- Witness for claim C6: concrete masked fill where containment fails and
the fallback runs. -/
theorem fill_masked_field_fallback_witness :
    fill_masked_field maskWitnessEnv "cpf" "12" none = true ∧
    ∀ r, fill_masked_field { maskWitnessEnv with readBackAfterAssign := r }
      "cpf" "12" none = true :=
  fill_masked_field_fallback_assumed_success maskWitnessEnv "cpf" "12" none
    3 (some "xx") rfl rfl rfl rfl rfl (by decide) rfl rfl

/-- Helper for claim C1: a fill attempt returns True only at a read-back
equal to the requested text. -/
theorem fill_attempt_verifies (env : FillEnv) (h : Handle) (text : String)
    (i : Nat) (v : Option String)
    (hv : fill_attempt env h text i = some v) : v = some text := by
  unfold fill_attempt at hv
  repeat' split at hv
  all_goals simp_all

/-- Helper for claim C1: the fill loop returns True only at a read-back
equal to the requested text. -/
theorem fill_loop_verifies (env : FillEnv) (h : Handle) (text : String) :
    ∀ fuel i v, fill_loop env h text fuel i = some v → v = some text := by
  intro fuel
  induction fuel with
  | zero => intro i v hv; simp [fill_loop] at hv
  | succ n ih =>
    intro i v hv
    unfold fill_loop at hv
    cases ha : fill_attempt env h text i with
    | some w =>
      rw [ha] at hv
      cases hv
      exact fill_attempt_verifies env h text i v ha
    | none =>
      rw [ha] at hv
      exact ih (i + 1) v hv

/-- Helper for claim C1: `fill_field` reports success only with a verified
read-back. -/
theorem fill_field_postResolve_verifies (env : FillEnv) (h : Handle)
    (text : String) (v : Option String)
    (hv : fill_field_postResolve env h text = .ok (some v)) :
    v = some text := by
  unfold fill_field_postResolve at hv
  repeat' split at hv
  all_goals try simp_all
  all_goals exact fill_loop_verifies env h text 3 0 v (by simp_all)

/-- Helper for claim C1: the body of `fill_field` reports success only
with a verified read-back. -/
theorem fill_field_result_verifies (env : FillEnv) (selector text : String)
    (clear : Bool) (v : Option String)
    (hv : fill_field_result env selector text clear = .ok (some v)) :
    v = some text := by
  have hd : ∀ o, fill_field_dispatch env text o = .ok (some v) →
      v = some text := by
    intro o ho
    cases o with
    | none => simp [fill_field_dispatch] at ho
    | some h => exact fill_field_postResolve_verifies env h text v ho
  unfold fill_field_result at hv
  repeat' split at hv
  all_goals try simp_all
  all_goals exact hd _ hv

/-- Claim C1: whenever `fill_field` with `clear=true` returns true, the
field's final value as read back via the `value` attribute at the
verification that triggered the return equals the requested text;
`fill_field` never returns true while the read-back value differs from
`text`. -/
theorem fill_field_true_implies_match (env : FillEnv)
    (selector text : String)
    (htrue : fill_field env selector text true = true) :
    fill_field_result env selector text true = .ok (some (some text)) := by
  unfold fill_field at htrue
  cases hr : fill_field_result env selector text true with
  | error e => rw [hr] at htrue; simp at htrue
  | ok o =>
    cases o with
    | none => rw [hr] at htrue; simp at htrue
    | some v =>
      have hvv := fill_field_result_verifies env selector text true v hr
      rw [hvv]

/-- Witness for claim C1: a concrete fill that verifies on the first
attempt. -/
theorem fill_field_true_implies_match_witness :
    fill_field_result fillWitnessEnv "account" "abc" true =
      .ok (some (some "abc")) :=
  fill_field_true_implies_match fillWitnessEnv "account" "abc" (by rfl)

/-- Counterexample for claim C5: with the target field unresolvable (the
visible-mode wait times out and every recovery strategy fails),
`fill_field` completes with the boolean False and no exception - the body
reaches the `return False` at line 242, so no terminal error is thrown,
contradicting the claim that field fill raises a thrown error when
resolution ultimately fails after recovery (that raise lives in the
caller `do_login`, not in `fill_field`). -/
theorem fill_field_no_terminal_raise_cex :
    fill_field_result fillFailEnv "user" "alice" true = .ok none ∧
    fill_field fillFailEnv "user" "alice" true = false :=
  ⟨rfl, rfl⟩

/-- Claim C5 (amended): all lower-level interaction failures are surfaced
as a boolean false, and field fill is no exception: when resolution of
the target field ultimately fails even after recovery, `fill_field`
returns False without raising (the terminal raise happens in the caller
`do_login`). -/
theorem fill_field_resolution_failure_returns_false (env : FillEnv)
    (selector text : String) (clear : Bool)
    (hwait : env.visibleUntil = .error .timeout)
    (hrec : ensure_valid_element (fillEnsureEnv env) none = none) :
    fill_field_result env selector text clear = .ok none ∧
    fill_field env selector text clear = false := by
  have h1 : fill_field_result env selector text clear = .ok none := by
    unfold fill_field_result wait_for_element_visible
    simp [hwait, hrec, fill_field_dispatch]
  refine ⟨h1, ?_⟩
  unfold fill_field
  rw [h1]

/-- Witness for claim C5's amended theorem. -/
theorem fill_field_resolution_failure_returns_false_witness :
    fill_field_result fillFailEnv "pass" "secret" true = .ok none ∧
    fill_field fillFailEnv "pass" "secret" true = false :=
  fill_field_resolution_failure_returns_false fillFailEnv "pass" "secret"
    true rfl rfl

/-- Unfolding equation for one attempt of the click loop. -/
theorem click_loop_succ (env : ClickEnv) (fuel i : Nat) :
    click_loop env (fuel + 1) i =
      match env.attemptOutcome i with
      | .success => (true, i + 1)
      | .intercepted fb =>
        match fb with
        | .ok _ => (true, i + 1)
        | .error _ => click_loop env fuel (i + 1)
      | .failed msg =>
        if staleMsg msg then
          if env.postStaleExists i then click_loop env fuel (i + 1)
          else (false, i + 1)
        else (false, i + 1) := by
  simp [click_loop]

/-- Claim C3: a click against an element that becomes permanently detached
after the first attempt returns false without continuing to the third
attempt.  With the element live on entry, the first attempt falling
through (interception with failed fallback, or a transient stale error
with a live re-probe), the second attempt raising an error whose message
mentions a stale element reference, and the liveness re-probe failing,
`click_element` returns false having executed exactly 2 of the 3
attempts: staleness short-circuits the retry loop. -/
theorem click_element_stale_short_circuit (env : ClickEnv)
    (element : Handle) (msg : String)
    (hentry : env.entryExists = true)
    (h0 : attemptContinues env 0 = true)
    (h1 : env.attemptOutcome 1 = .failed msg)
    (hstale : staleMsg msg = true)
    (hdead : env.postStaleExists 1 = false) :
    click_element env element = (false, 2) := by
  have key : click_loop env 2 1 = (false, 2) := by
    show click_loop env (1 + 1) 1 = (false, 2)
    rw [click_loop_succ, h1]
    simp [hstale, hdead]
  unfold click_element
  rw [hentry]
  simp only [if_true]
  show click_loop env (2 + 1) 0 = (false, 2)
  rw [click_loop_succ]
  unfold attemptContinues at h0
  cases ha : env.attemptOutcome 0 with
  | success => rw [ha] at h0; simp at h0
  | intercepted fb =>
    rw [ha] at h0
    cases fb with
    | ok u => simp [exceptOk] at h0
    | error e => simpa using key
  | failed m =>
    rw [ha] at h0
    simp at h0
    obtain ⟨hm1, hm2⟩ := h0
    simpa [hm1, hm2] using key

/-- Witness for claim C3: concrete click where attempt 0 is intercepted
with a failed fallback and attempt 1 hits a dead stale reference; only 2
attempts execute. -/
theorem click_element_stale_short_circuit_witness :
    click_element clickStaleEnv 0 = (false, 2) :=
  click_element_stale_short_circuit clickStaleEnv 0
    "stale element reference: element is not attached" rfl rfl rfl
    (by decide) rfl

/-- Helper for claim C2: under a clock that advances by at least one
second per pass (the body always sleeps at least that long: each selector
probe either waits out its 3-second timeout or is followed by
`time.sleep(1)`), a fuel of `popup_check` plus the passes already taken
is enough - the loop never exhausts its fuel while its condition holds. -/
theorem handle_popups_loop_isSome (env : PopupEnv) (start : Int)
    (hmono : ∀ k, env.timeAt k + 1 ≤ env.timeAt (k + 1)) :
    ∀ fuel k ma pc, start + k ≤ env.timeAt k →
      TIMEOUTS_popup_check ≤ fuel + k →
      (handle_popups_loop env start fuel k ma pc).isSome = true := by
  intro fuel
  induction fuel with
  | zero =>
    intro k ma pc hk hfk
    unfold handle_popups_loop
    rw [if_neg]
    · simp
    · rintro ⟨hlt, -⟩
      simp only [TIMEOUTS_popup_check] at hfk hlt
      omega
  | succ n ih =>
    intro k ma pc hk hfk
    unfold handle_popups_loop
    by_cases hc :
        env.timeAt k - start < (TIMEOUTS_popup_check : Int) ∧ 0 < ma
    · rw [if_pos hc]
      by_cases hb : 0 < pc + (if env.found k then env.closedInPass k else 0)
          ∧ env.stillVisible k = false
      · rw [if_pos hb]; simp
      · rw [if_neg hb]
        apply ih
        · have := hmono k
          push_cast
          omega
        · omega
    · rw [if_neg hc]; simp

/-- Claim C2: the popup-dismissal loop is wall-clock bounded.  Under a
monotone clock gaining at least one second per pass, `handle_popups`
terminates (returns a popup count within its fuel, which equals the
`popup_check` budget), and - the second conjunct - whenever the elapsed
time at a condition check has reached TIMEOUTS["popup_check"], the loop
exits immediately with the current count, for every remaining scan-pass
count `ma` and every fuel: the exit is unconditional and independent of
the scan-pass counter. -/
theorem handle_popups_time_boxed (env : PopupEnv) (start : Int)
    (h0 : start ≤ env.timeAt 0)
    (hmono : ∀ k, env.timeAt k + 1 ≤ env.timeAt (k + 1)) :
    (∃ pc, handle_popups env start = some pc) ∧
    ∀ fuel k ma pc, (TIMEOUTS_popup_check : Int) ≤ env.timeAt k - start →
      handle_popups_loop env start fuel k ma pc = some pc := by
  constructor
  · have hs := handle_popups_loop_isSome env start hmono
      (TIMEOUTS_popup_check + 1) 0 3 0 (by simpa using h0) (by omega)
    unfold handle_popups
    exact Option.isSome_iff_exists.mp hs
  · intro fuel k ma pc ht
    have hnc : ¬ (env.timeAt k - start < (TIMEOUTS_popup_check : Int)
        ∧ 0 < ma) := by
      rintro ⟨hlt, -⟩
      omega
    cases fuel with
    | zero => unfold handle_popups_loop; rw [if_neg hnc]
    | succ n => unfold handle_popups_loop; rw [if_neg hnc]

/-- Witness for claim C2: a one-second-per-pass clock with a popup found
on every pass and never dismissed; the loop still terminates, and at a
check 50 seconds in it exits at once with the running count even with
scan passes remaining. -/
theorem handle_popups_time_boxed_witness :
    (∃ pc, handle_popups popupWitnessEnv 0 = some pc) ∧
    handle_popups_loop popupWitnessEnv 0 5 50 3 0 = some 0 := by
  have h := handle_popups_time_boxed popupWitnessEnv 0
    (by simp [popupWitnessEnv])
    (fun k => by simp [popupWitnessEnv])
  exact ⟨h.1, h.2 5 50 3 0 (by norm_num [popupWitnessEnv, TIMEOUTS_popup_check])⟩

/-- Helper for claim C8: once the class, text and tag reads are known to
succeed, the tail of `find_similar_element` is the pure strategy cascade. -/
theorem find_similar_rest_eq (env : SimilarEnv) (clsOpt : Option String)
    (txt tag : String) (hc : env.origClass = .ok clsOpt)
    (ht : env.origText = .ok txt) (hg : env.origTag = .ok tag) :
    find_similar_rest env = restClaimed env clsOpt txt tag := by
  unfold find_similar_rest restClaimed
  rw [hc, ht, hg]

/-- Claim C8 (amended): `find_similar_element` tries its strategies in
exactly the order id attribute, class tokens, text contains, tag plus
type/name attributes, and returns the first displayed-and-enabled
candidate - provided no lookup raises.  The amendment the code forces:
when the original has a (truthy) id attribute but the `By.ID` lookup
raises because no element carries that id any more, the exception aborts
the whole search and `find_similar_element` returns none without trying
the remaining strategies. -/
theorem find_similar_element_amended (env : SimilarEnv) :
    (∀ idOpt clsOpt txt tag,
        env.origId = .ok idOpt → env.origClass = .ok clsOpt →
        env.origText = .ok txt → env.origTag = .ok tag →
        (∀ i, pyTruthy idOpt = some i → exceptOk (env.findById i) = true) →
        find_similar_element env =
          find_similar_claimed env idOpt clsOpt txt tag) ∧
    (∀ idOpt i e, env.origId = .ok idOpt → pyTruthy idOpt = some i →
        env.findById i = .error e → find_similar_element env = none) := by
  constructor
  · intro idOpt clsOpt txt tag hid hc ht hg hok
    have hrest := find_similar_rest_eq env clsOpt txt tag hc ht hg
    unfold find_similar_element find_similar_claimed
    simp only [hid]
    cases hty : pyTruthy idOpt with
    | none => simpa [hty] using hrest
    | some i =>
      have hko := hok i hty
      cases hfi : env.findById i with
      | error e => rw [hfi] at hko; simp [exceptOk] at hko
      | ok h =>
        by_cases hcand : okCand env h = true
        · simp [hty, hfi, hcand]
        · simpa [hty, hfi, hcand] using hrest
  · intro idOpt i e hid hty hfi
    unfold find_similar_element
    simp [hid, hty, hfi]

/-- Counterexample for claim C8: in `similarCexEnv` the original element
has id "btn-id" but no element with that id exists, so the id lookup
raises and `find_similar_element` returns none - even though the
class-token strategy yields the displayed-and-enabled candidate 5 (as the
claim's own cascade, `find_similar_claimed`, confirms).  This contradicts
the claim that the function returns the first displayed-and-enabled
candidate across the ordered strategies, returning none only when no
strategy yields such a candidate. -/
theorem find_similar_element_order_cex :
    find_similar_element similarCexEnv = none ∧
    strategy2 similarCexEnv (some "btn") = some 5 ∧
    okCand similarCexEnv 5 = true ∧
    find_similar_claimed similarCexEnv (some "btn-id") (some "btn") ""
      "button" = some 5 := by
  exact ⟨rfl, rfl, rfl, rfl⟩

/-- Witness for claim C8's amended theorem: with every lookup succeeding
the function equals the claimed cascade, and with a raising id lookup it
returns none. -/
theorem find_similar_element_amended_witness :
    find_similar_element similarLiveEnv =
      find_similar_claimed similarLiveEnv (some "okid") none "" "" ∧
    find_similar_element similarCexEnv = none := by
  constructor
  · exact (find_similar_element_amended similarLiveEnv).1 (some "okid")
      none "" "" rfl rfl rfl rfl (fun i _ => rfl)
  · exact (find_similar_element_amended similarCexEnv).2 (some "btn-id")
      "btn-id" (.other "no such element") rfl rfl rfl
